import Mathlib

/-!
Verification of the Sync-One2 client library (src/Python/Sync_One2.py).

The Python class `SyncOne2` is embedded shallowly: the serial transport is
modelled as a finite script of incoming text lines (each line is what one
`read_until(b'\r')` call yields after the terminator is stripped; an
exhausted script models a read timeout, which PySerial reports as an empty
read).  Every public method becomes a Lean function from a `State` to a
result, a successor state, and a trace of transport I/O events.  Python
exceptions (`ValueError` from `int()`/`float()`, `IndexError` from list
indexing) are modelled with `Except`.
-/

namespace SyncOne2

/-! ### String helpers, mirroring the Python primitives used by the source -/

/-- `leadsWith hay needle`: `hay` begins with `needle` (character lists). -/
def leadsWith : List Char → List Char → Bool
  | _, [] => true
  | [], _ :: _ => false
  | c :: cs, d :: ds => c = d && leadsWith cs ds

/-- `subOccurs hay needle`: `needle` occurs as a contiguous run inside `hay`. -/
def subOccurs : List Char → List Char → Bool
  | [], needle => needle.isEmpty
  | c :: rest, needle => leadsWith (c :: rest) needle || subOccurs rest needle

/-- Python's `needle in hay` on strings (substring containment). -/
def pyIn (needle hay : String) : Bool := subOccurs hay.data needle.data

/-- Split a character list on a single separator character. -/
def splitCharList (sep : Char) : List Char → List (List Char)
  | [] => [[]]
  | c :: cs =>
    let r := splitCharList sep cs
    if c = sep then [] :: r
    else
      match r with
      | [] => [[c]]
      | h :: t => (c :: h) :: t

/-- Python's `s.split(sep)` for a one-character separator (the source only
splits on `","`, and the float parser below splits on `"."`). -/
def pySplit (s : String) (sep : Char) : List String :=
  (splitCharList sep s.data).map String.mk

def isSpace (c : Char) : Bool :=
  c = ' ' || c = '\t' || c = '\n' || c = '\x0d' || c = '\x0b' || c = '\x0c'

/-- Leading/trailing whitespace removal, as `int()`/`float()` apply to their
argument. -/
def trimChars (cs : List Char) : List Char :=
  ((cs.dropWhile isSpace).reverse.dropWhile isSpace).reverse

def isDig (c : Char) : Bool := 48 ≤ c.toNat && c.toNat ≤ 57

def digitsVal (cs : List Char) : Nat :=
  cs.foldl (fun a c => a * 10 + (c.toNat - 48)) 0

def digitsToNat? (cs : List Char) : Option Nat :=
  if cs.isEmpty then none
  else if cs.all isDig then some (digitsVal cs) else none

/-- Python's `int(s)`: `none` models the `ValueError` raised on a string that
is not an optionally signed run of digits. -/
def pyInt? (s : String) : Option Int :=
  match trimChars s.data with
  | '+' :: r => (digitsToNat? r).map Int.ofNat
  | '-' :: r => (digitsToNat? r).map (fun n => -(Int.ofNat n))
  | r => (digitsToNat? r).map Int.ofNat

/-- An exact decimal number `num / 10 ^ exp`: the value Python's `float(s)`
denotes on the plain decimal literals this protocol carries. -/
structure Dec where
  num : Int
  exp : Nat
  deriving DecidableEq, Repr

/-- The rational value of a decimal. -/
def Dec.toRat (d : Dec) : Rat := (d.num : Rat) / (10 : Rat) ^ d.exp

def decOfParts (sign : Bool) (a b : List Char) : Option Dec :=
  if a.isEmpty && b.isEmpty then none
  else if a.all isDig && b.all isDig then
    let m : Int := Int.ofNat (digitsVal a * 10 ^ b.length + digitsVal b)
    some ⟨if sign then -m else m, b.length⟩
  else none

/-- Python's `float(s)` on decimal literals (`"60"`, `"1.5"`, `"-.5"`, `"5."`):
`none` models the `ValueError` raised on a malformed literal. -/
def pyFloat? (s : String) : Option Dec :=
  let cs := trimChars s.data
  let signBody : Bool × List Char :=
    match cs with
    | '+' :: r => (false, r)
    | '-' :: r => (true, r)
    | r => (false, r)
  match splitCharList '.' signBody.2 with
  | [a] => decOfParts signBody.1 a []
  | [a, b] => decOfParts signBody.1 a b
  | _ => none

/-! ### Values, errors, session state, transport events -/

/-- A Python value as returned by the methods of `SyncOne2`. -/
inductive PyVal where
  | str (s : String)
  | int (n : Int)
  | real (d : Dec)
  | list (xs : List PyVal)
  | pnone
  deriving Repr

/-- A Python exception escaping a method. -/
inductive PyErr where
  | valueError
  | indexError
  deriving DecidableEq, Repr

/-- Transport I/O events (the narrow PySerial surface the source uses). -/
inductive Ev where
  | openEv
  | closeEv
  | resetInput
  | write (s : String)
  | read (s : String)
  | setTimeout (n : Nat)
  deriving DecidableEq, Repr

/-- Session state: `serialPort` and `in_API` are the two attributes set by
`__init__`; `portOpen` and `timeout` model the owned `serial.Serial` handle;
`lines` is the script of lines the device will deliver (stripped of `'\r'`),
an exhausted script yielding the empty read of a timeout. -/
structure State where
  serialPort : String
  in_API : Bool
  portOpen : Bool
  timeout : Nat
  lines : List String
  deriving Repr

/-- `SyncOne2.__init__`. -/
def init (serialPort : String) : State :=
  { serialPort := serialPort, in_API := false, portOpen := false, timeout := 1, lines := [] }

/-- Result of a public method: the returned value-pair (or the escaping
exception), the successor state, the transport I/O performed. -/
abbrev Res := Except PyErr (PyVal × Bool)

abbrev OpOut := Res × State × List Ev

/-- The fixed mode-error result every guarded method returns when
`in_API` is false. -/
def modeErr : Res := .ok (.str "ERR Not in API mode", false)

def notInAPI (st : State) : OpOut := (modeErr, st, [])

/-! ### Private helpers of the class -/

/-- `__open_port` on the success path: opens at timeout 1 and clears the
input buffer.  (The `SerialException` path is the `openOk = false` branch of
`enter_API`.) -/
def openPort (st : State) : State × List Ev :=
  ({ st with portOpen := true, timeout := 1 }, [Ev.openEv, Ev.resetInput])

/-- `__get_reply`: one `read_until(b'\r')` with the terminator stripped by
`__parse_line`. -/
def getReply (st : State) : String × State × List Ev :=
  (st.lines.headD "", { st with lines := st.lines.tail }, [Ev.read (st.lines.headD "")])

/-- `__send_command`: append `"\r"` and write. -/
def sendCommand (cmd : String) (st : State) : State × List Ev :=
  (st, [Ev.write (cmd ++ "\x0d")])

/-- `__commmand_and_reply` (sic). -/
def commandAndReply (cmd : String) (st : State) : String × State × List Ev :=
  let s1 := sendCommand cmd st
  let r := getReply s1.1
  (r.1, r.2.1, s1.2 ++ r.2.2)

/-- The loop of `__wait_for_string`, entered with the line `reply` already
read: return `True` as soon as `string in reply`; otherwise read another
line and return `False` if that read is empty. -/
def waitLoop (tok : String) : String → List String → Bool × List String × List Ev
  | reply, ls =>
    if pyIn tok reply then (true, ls, [])
    else
      match ls with
      | [] => (false, [], [Ev.read ""])
      | l :: rest =>
        if l = "" then (false, rest, [Ev.read ""])
        else
          let r := waitLoop tok l rest
          (r.1, r.2.1, Ev.read l :: r.2.2)

/-- `__wait_for_string`. -/
def waitForString (tok : String) (st : State) : Bool × State × List Ev :=
  let r0 := getReply st
  let r := waitLoop tok r0.1 r0.2.1.lines
  (r.1, { r0.2.1 with lines := r.2.1 }, r0.2.2 ++ r.2.2)

/-! ### Reply classification helpers shared by several methods -/

/-- The `if "ERR" not in reply: (reply, True) else: (reply, False)` pattern. -/
def errCheck (reply : String) : Res :=
  if pyIn "ERR" reply then .ok (.str reply, false) else .ok (.str reply, true)

/-- `xs[i] = int(xs[i])` on a Python list: `IndexError` when `i` is out of
range, `ValueError` when the field is not an integer literal.  (The non-string
case never arises: every index is converted once, from the string produced by
`split`.) -/
def convIntAt (xs : List PyVal) (i : Nat) : Except PyErr (List PyVal) :=
  match xs[i]? with
  | none => .error .indexError
  | some (.str s) =>
    match pyInt? s with
    | some n => .ok (xs.set i (.int n))
    | none => .error .valueError
  | some _ => .error .valueError

/-- `xs[i] = float(xs[i])`, analogously. -/
def convFloatAt (xs : List PyVal) (i : Nat) : Except PyErr (List PyVal) :=
  match xs[i]? with
  | none => .error .indexError
  | some (.str s) =>
    match pyFloat? s with
    | some d => .ok (xs.set i (.real d))
    | none => .error .valueError
  | some _ => .error .valueError

/-! ### Public methods -/

/-- `enter_API` (source lines 96-113).  `openOk` is the outcome of the
`serial.Serial` constructor: `false` models a `SerialException`. -/
def enter_API (openOk : Bool) (st : State) : Bool × State × List Ev :=
  if openOk then
    let o := openPort st
    let s := sendCommand "API" o.1
    let w := waitForString "OK" s.1
    (w.1, { w.2.1 with in_API := w.1 }, o.2 ++ s.2 ++ w.2.2)
  else
    (false, st, [])

/-- `audio_in` (lines 115-126). -/
def audio_in (st : State) : OpOut :=
  if st.in_API then
    let r := commandAndReply "AUDIO IN" st
    (.ok (.str r.1, true), r.2.1, r.2.2)
  else notInAPI st

/-- `calibrate` (lines 128-144): widens the read timeout to 10 for the
acknowledgment wait, restores it to 1 before returning. -/
def calibrate (st : State) : OpOut :=
  if st.in_API then
    let st1 : State := { st with timeout := 10 }
    let s := sendCommand "CALIBRATE" st1
    let w := waitForString "OK" s.1
    let st2 : State := { w.2.1 with timeout := 1 }
    (.ok (.str "OK", w.1), st2, Ev.setTimeout 10 :: (s.2 ++ w.2.2) ++ [Ev.setTimeout 1])
  else notInAPI st

/-- `clear_stats` (lines 146-158). -/
def clear_stats (st : State) : OpOut :=
  if st.in_API then
    let s := sendCommand "CLEAR STATS" st
    let w := waitForString "OK" s.1
    (.ok (.str "OK", w.1), w.2.1, s.2 ++ w.2.2)
  else notInAPI st

/-- `custom_splash_1` (lines 160-177). -/
def custom_splash_1 (message : String) (st : State) : OpOut :=
  if st.in_API then
    let r := commandAndReply ("CUSTOM SPLASH 1 \"" ++ message ++ "\" ") st
    (errCheck r.1, r.2.1, r.2.2)
  else notInAPI st

/-- `custom_splash_2` (lines 179-196). -/
def custom_splash_2 (message : String) (st : State) : OpOut :=
  if st.in_API then
    let r := commandAndReply ("CUSTOM SPLASH 2 \"" ++ message ++ "\" ") st
    (errCheck r.1, r.2.1, r.2.2)
  else notInAPI st

/-- `exit_API` (lines 198-212): sends `EXIT`, drops the flag before the
acknowledgment wait, then closes the port unconditionally. -/
def exit_API (st : State) : OpOut :=
  if st.in_API then
    let s := sendCommand "EXIT" st
    let st1 : State := { s.1 with in_API := false }
    let w := waitForString "OK" st1
    let st2 : State := { w.2.1 with portOpen := false }
    (.ok (.str "OK", w.1), st2, s.2 ++ w.2.2 ++ [Ev.closeEv])
  else notInAPI st

/-- `extended_mode` (lines 214-225). -/
def extended_mode (st : State) : OpOut :=
  if st.in_API then
    let r := commandAndReply "EXTENDED MODE" st
    (.ok (.str r.1, true), r.2.1, r.2.2)
  else notInAPI st

/-- `frame_rate` (lines 227-239): `int(reply)`. -/
def frame_rate (st : State) : OpOut :=
  if st.in_API then
    let r := commandAndReply "FRAME RATE" st
    match pyInt? r.1 with
    | some n => (.ok (.int n, true), r.2.1, r.2.2)
    | none => (.error .valueError, r.2.1, r.2.2)
  else notInAPI st

/-- `mask_len` (lines 241-253): `int(reply)`. -/
def mask_len (st : State) : OpOut :=
  if st.in_API then
    let r := commandAndReply "MASK LEN" st
    match pyInt? r.1 with
    | some n => (.ok (.int n, true), r.2.1, r.2.2)
    | none => (.error .valueError, r.2.1, r.2.2)
  else notInAPI st

/-- `offset` (lines 255-267): `float(reply)`. -/
def offset (st : State) : OpOut :=
  if st.in_API then
    let r := commandAndReply "OFFSET" st
    match pyFloat? r.1 with
    | some d => (.ok (.real d, true), r.2.1, r.2.2)
    | none => (.error .valueError, r.2.1, r.2.2)
  else notInAPI st

/-- `reset_settings` (lines 269-280): the reply is read and discarded;
`("OK", True)` is returned unconditionally. -/
def reset_settings (st : State) : OpOut :=
  if st.in_API then
    let r := commandAndReply "RESET SETTINGS" st
    (.ok (.str "OK", true), r.2.1, r.2.2)
  else notInAPI st

/-- `set_audio_in` (lines 282-300). -/
def set_audio_in (audioPort : String) (st : State) : OpOut :=
  if st.in_API then
    let r := commandAndReply ("SET AUDIO IN " ++ audioPort) st
    (errCheck r.1, r.2.1, r.2.2)
  else notInAPI st

/-- `set_audio_trigger_level` (lines 302-320). -/
def set_audio_trigger_level (triggerLevel : Int) (st : State) : OpOut :=
  if st.in_API then
    let r := commandAndReply ("SET AUDIO TRIGGER LEVEL " ++ toString triggerLevel) st
    (errCheck r.1, r.2.1, r.2.2)
  else notInAPI st

/-- `ser_extended_mode` (sic, lines 322-340). -/
def ser_extended_mode (mode : String) (st : State) : OpOut :=
  if st.in_API then
    let r := commandAndReply ("SET EXTENDED MODE " ++ mode) st
    (errCheck r.1, r.2.1, r.2.2)
  else notInAPI st

/-- `set_frame_rate` (lines 342-361). -/
def set_frame_rate (frames : Int) (st : State) : OpOut :=
  if st.in_API then
    let r := commandAndReply ("SET FRAME RATE " ++ toString frames) st
    (errCheck r.1, r.2.1, r.2.2)
  else notInAPI st

/-- `set_mask_len` (lines 363-382). -/
def set_mask_len (mask : Int) (st : State) : OpOut :=
  if st.in_API then
    let r := commandAndReply ("SET MASK LEN " ++ toString mask) st
    (errCheck r.1, r.2.1, r.2.2)
  else notInAPI st

/-- `set_offset` (lines 384-403). -/
def set_offset (off : Int) (st : State) : OpOut :=
  if st.in_API then
    let r := commandAndReply ("SET OFFSET " ++ toString off) st
    (errCheck r.1, r.2.1, r.2.2)
  else notInAPI st

/-- `set_speaker_dist` (lines 405-424). -/
def set_speaker_dist (distance : Int) (st : State) : OpOut :=
  if st.in_API then
    let r := commandAndReply ("SET SPEAKER DIST " ++ toString distance) st
    (errCheck r.1, r.2.1, r.2.2)
  else notInAPI st

/-- `set_video_trigger_level` (lines 426-444). -/
def set_video_trigger_level (triggerLevel : Int) (st : State) : OpOut :=
  if st.in_API then
    let r := commandAndReply ("SET VIDEO TRIGGER LEVEL " ++ toString triggerLevel) st
    (errCheck r.1, r.2.1, r.2.2)
  else notInAPI st

/-- `settings` (lines 446-479): split the reply on commas and convert
positions 2,3,5,7,8,9 with `int()` and position 4 with `float()`, in source
order. -/
def settings (st : State) : OpOut :=
  if st.in_API then
    let r := commandAndReply "SETTINGS" st
    let fields := (pySplit r.1 ',').map PyVal.str
    let conv : Except PyErr (List PyVal) := do
      let f2 ← convIntAt fields 2
      let f3 ← convIntAt f2 3
      let f4 ← convFloatAt f3 4
      let f5 ← convIntAt f4 5
      let f7 ← convIntAt f5 7
      let f8 ← convIntAt f7 8
      convIntAt f8 9
    match conv with
    | .ok l => (.ok (.list l, true), r.2.1, r.2.2)
    | .error e => (.error e, r.2.1, r.2.2)
  else notInAPI st

/-- `speaker_dist` (lines 481-497): split on commas, convert position 0 with
`float()` and positions 1,2 with `int()`. -/
def speaker_dist (st : State) : OpOut :=
  if st.in_API then
    let r := commandAndReply "SPEAKER DIST" st
    let fields := (pySplit r.1 ',').map PyVal.str
    let conv : Except PyErr (List PyVal) := do
      let f0 ← convFloatAt fields 0
      let f1 ← convIntAt f0 1
      convIntAt f1 2
    match conv with
    | .ok l => (.ok (.list l, true), r.2.1, r.2.2)
    | .error e => (.error e, r.2.1, r.2.2)
  else notInAPI st

/-- `support_code` (lines 499-510). -/
def support_code (st : State) : OpOut :=
  if st.in_API then
    let r := commandAndReply "SUPPORT CODE" st
    (.ok (.str r.1, true), r.2.1, r.2.2)
  else notInAPI st

/-- `start` (lines 512-529): widens the timeout to 10, sends `START`, reads
one reply, waits for the `START` acknowledgment, restores the timeout, then
classifies the first reply. -/
def start (st : State) : OpOut :=
  if st.in_API then
    let st1 : State := { st with timeout := 10 }
    let r := commandAndReply "START" st1
    let w := waitForString "START" r.2.1
    let st2 : State := { w.2.1 with timeout := 1 }
    (errCheck r.1, st2, Ev.setTimeout 10 :: (r.2.2 ++ w.2.2) ++ [Ev.setTimeout 1])
  else notInAPI st

/-- `start_nocal` (lines 531-546). -/
def start_nocal (st : State) : OpOut :=
  if st.in_API then
    let r := commandAndReply "START NOCAL" st
    let w := waitForString "START" r.2.1
    (errCheck r.1, w.2.1, r.2.2 ++ w.2.2)
  else notInAPI st

/-- The read loop of `stats`: with `line` the line already read, keep
appending `line.split(",")` rows and reading until an empty line. -/
def statsLoop : String → List String → List (List String) × List String × List Ev
  | line, ls =>
    if line = "" then ([], ls, [])
    else
      match ls with
      | [] => ([pySplit line ','], [], [Ev.read ""])
      | l :: rest =>
        let r := statsLoop l rest
        (pySplit line ',' :: r.1, r.2.1, Ev.read l :: r.2.2)

/-- The conversion loop of `stats`: `row[col] = float(row[col])` for
`col in range(k)`, left to right. -/
def convRowAux : Nat → List String → Except PyErr (List PyVal)
  | 0, rest => .ok (rest.map PyVal.str)
  | _ + 1, [] => .error .indexError
  | k + 1, s :: rest =>
    match pyFloat? s with
    | none => .error .valueError
    | some d => (convRowAux k rest).map (PyVal.real d :: ·)

/-- One row of the stats table: first six fields become floats, the rest stay
text. -/
def convRow6 (row : List String) : Except PyErr (List PyVal) :=
  convRowAux 6 row

/-- All rows, in order, as `stats` converts them. -/
def convRows : List (List String) → Except PyErr (List PyVal)
  | [] => .ok []
  | r :: rs => do
    let pr ← convRow6 r
    let prs ← convRows rs
    pure (.list pr :: prs)

/-- `stats` (lines 548-580): the `"ERR"` test is applied to the first reply
line only; then lines are collected until an empty read and every row's first
six fields are converted with `float()`. -/
def stats (st : State) : OpOut :=
  if st.in_API then
    let s := sendCommand "STATS" st
    let r := getReply s.1
    if pyIn "ERR" r.1 then
      (.ok (.str r.1, false), r.2.1, s.2 ++ r.2.2)
    else
      let lp := statsLoop r.1 r.2.1.lines
      let st1 : State := { r.2.1 with lines := lp.2.1 }
      match convRows lp.1 with
      | .ok rows => (.ok (.list rows, true), st1, s.2 ++ r.2.2 ++ lp.2.2)
      | .error e => (.error e, st1, s.2 ++ r.2.2 ++ lp.2.2)
  else notInAPI st

/-- `stats_avg` (lines 582-602). -/
def stats_avg (st : State) : OpOut :=
  if st.in_API then
    let r := commandAndReply "STATS AVG" st
    if pyIn "ERR" r.1 then (.ok (.str r.1, false), r.2.1, r.2.2)
    else
      let fields := (pySplit r.1 ',').map PyVal.str
      let conv : Except PyErr (List PyVal) := do
        let f0 ← convIntAt fields 0
        convFloatAt f0 1
      match conv with
      | .ok l => (.ok (.list l, true), r.2.1, r.2.2)
      | .error e => (.error e, r.2.1, r.2.2)
  else notInAPI st

/-- `stats_count` (lines 604-616): `int(reply)`. -/
def stats_count (st : State) : OpOut :=
  if st.in_API then
    let r := commandAndReply "STATS COUNT" st
    match pyInt? r.1 with
    | some n => (.ok (.int n, true), r.2.1, r.2.2)
    | none => (.error .valueError, r.2.1, r.2.2)
  else notInAPI st

/-- `stats_span` (lines 618-640). -/
def stats_span (st : State) : OpOut :=
  if st.in_API then
    let r := commandAndReply "STATS SPAN" st
    if pyIn "ERR" r.1 then (.ok (.str r.1, false), r.2.1, r.2.2)
    else
      let fields := (pySplit r.1 ',').map PyVal.str
      let conv : Except PyErr (List PyVal) := do
        let f0 ← convIntAt fields 0
        convFloatAt f0 1
      match conv with
      | .ok l => (.ok (.list l, true), r.2.1, r.2.2)
      | .error e => (.error e, r.2.1, r.2.2)
  else notInAPI st

/-- `stats_trim` (lines 642-656). -/
def stats_trim (st : State) : OpOut :=
  if st.in_API then
    let r := commandAndReply "STATS TRIM" st
    (errCheck r.1, r.2.1, r.2.2)
  else notInAPI st

/-- `stop` (lines 658-670): waits for `"OK"` but returns `("OK", True)`
unconditionally. -/
def stop (st : State) : OpOut :=
  if st.in_API then
    let s := sendCommand "STOP" st
    let w := waitForString "OK" s.1
    (.ok (.str "OK", true), w.2.1, s.2 ++ w.2.2)
  else notInAPI st

/-- `get_reading` (lines 672-688): an empty read is "no valid reading",
returned as `(None, False)`. -/
def get_reading (st : State) : OpOut :=
  if st.in_API then
    let r := getReply st
    if r.1 = "" then (.ok (.pnone, false), r.2.1, r.2.2)
    else
      match pyInt? r.1 with
      | some n => (.ok (.int n, true), r.2.1, r.2.2)
      | none => (.error .valueError, r.2.1, r.2.2)
  else notInAPI st

/-! ### Observation helpers used by the statements -/

/-- Is this event a change of the read timeout? -/
def isSetT : Ev → Bool
  | .setTimeout _ => true
  | _ => false

/-- Is this value a Python float? -/
def isRealV : PyVal → Bool
  | .real _ => true
  | _ => false

/-- Spec-side description of the acknowledgment scan, following the amended
wording of the mode-entry claim: lines are scanned in order; a line that
contains the token ends the scan with success; an empty line ends the scan
with failure unless it is the very first line scanned, in which case the
scan simply continues; an exhausted input (every further read times out
empty) ends the scan with failure. -/
def scanSpecAux (tok : String) : Bool → List String → Bool
  | _, [] => false
  | first, l :: ls =>
    if pyIn tok l then true
    else if l = "" && !first then false
    else scanSpecAux tok false ls

/-! ### Helper lemmas -/

theorem pyIn_OK_OK : pyIn "OK" "OK" = true := by decide

theorem pyIn_OK_empty : pyIn "OK" "" = false := by decide

/-- The stats read loop stops at an empty line, consuming nothing further. -/
theorem statsLoop_empty (ls : List String) : statsLoop "" ls = ([], ls, []) := by
  unfold statsLoop
  simp

/-- The wait loop succeeds at once when the line in hand contains the token. -/
theorem waitLoop_found (tok r : String) (ls : List String) (h : pyIn tok r = true) :
    (waitLoop tok r ls).1 = true := by
  unfold waitLoop
  simp [h]

/-- The loop of `__wait_for_string` performs reads only: its trace contains
no timeout change. -/
theorem waitLoop_no_setT (tok : String) (ls : List String) :
    ∀ reply, ((waitLoop tok reply ls).2.2).filter isSetT = [] := by
  induction ls with
  | nil =>
    intro reply
    unfold waitLoop
    split
    · rfl
    · rfl
  | cons l rest ih =>
    intro reply
    unfold waitLoop
    split
    · rfl
    · by_cases h : l = ""
      · simp [h, isSetT]
      · simp [h, isSetT, ih l]

/-- `exit_API` always leaves `in_API` false, and closes the port exactly when
it was entitled to run (`in_API` true on entry). -/
theorem exit_API_toggle (st : State) :
    (exit_API st).2.1.in_API = false ∧
    (exit_API st).2.1.portOpen = (!st.in_API && st.portOpen) := by
  cases h : st.in_API with
  | false =>
    unfold exit_API
    rw [h]
    exact ⟨h, rfl⟩
  | true =>
    unfold exit_API
    rw [h]
    exact ⟨rfl, rfl⟩

/-- The loop of `__wait_for_string`, entered with a line not containing the
token already in hand, agrees with the spec-side scan in its non-first state
(the token `"OK"` cannot occur in an empty line). -/
theorem waitLoop_scan (ls : List String) :
    ∀ l, pyIn "OK" l = false → (waitLoop "OK" l ls).1 = scanSpecAux "OK" false ls := by
  induction ls with
  | nil =>
    intro l hl
    unfold waitLoop scanSpecAux
    simp [hl]
  | cons l' ls' ih =>
    intro l hl
    unfold waitLoop
    rw [hl]
    by_cases h' : l' = ""
    · subst h'
      simp [scanSpecAux, pyIn_OK_empty]
    · by_cases hp : pyIn "OK" l' = true
      · unfold waitLoop scanSpecAux
        simp [h', hp]
      · unfold scanSpecAux
        simp only [Bool.not_eq_true] at hp
        simp [h', hp, ih l' hp]

/-- On a successful conversion, a stats row has floats in its first `k`
positions and the original text in the rest. -/
theorem convRowAux_ok :
    ∀ (k : Nat) (xs : List String) (ys : List PyVal), convRowAux k xs = .ok ys →
      (ys.take k).all isRealV = true ∧ ys.drop k = (xs.drop k).map PyVal.str := by
  intro k
  induction k with
  | zero =>
    intro xs ys h
    simp only [convRowAux] at h
    injection h with h
    subst h
    simp
  | succ k ih =>
    intro xs ys h
    cases xs with
    | nil =>
      simp only [convRowAux] at h
      exact Except.noConfusion h
    | cons s rest =>
      simp only [convRowAux] at h
      cases hf : pyFloat? s with
      | none =>
        rw [hf] at h
        exact Except.noConfusion h
      | some d =>
        rw [hf] at h
        cases hr : convRowAux k rest with
        | error e =>
          rw [hr] at h
          simp only [Except.map] at h
          exact Except.noConfusion h
        | ok tail =>
          rw [hr] at h
          simp only [Except.map] at h
          injection h with h
          subst h
          have hih := ih rest tail hr
          simp [isRealV, hih.1, hih.2]

/-! ### Claim C1 -/

/-- C1, counterexample: starting from a fresh closed session, mode entry with
a successful port open but a failed acknowledgment (the device sends
nothing), followed immediately by mode exit, leaves the transport OPEN —
refuting the claim that entry followed by exit leaves the transport closed in
every outcome. -/
theorem c1_enter_exit_cex :
    ((exit_API (enter_API true ⟨"COM3", false, false, 1, []⟩).2.1).2.1).portOpen = true := by
  rfl

/-- C1, amended: mode entry followed immediately by mode exit always leaves
`in_API` false, and leaves the transport closed in every outcome EXCEPT when
entry opened the port but failed at acknowledgment (entry returned false
after a successful open): in that one outcome the port remains open, because
`exit_API` refuses to run when `in_API` is false and nothing else closes the
port. -/
theorem c1_enter_exit_amended (openOk : Bool) (sp : String) (t : Nat) (ls : List String) :
    ((exit_API (enter_API openOk ⟨sp, false, false, t, ls⟩).2.1).2.1).in_API = false ∧
    ((exit_API (enter_API openOk ⟨sp, false, false, t, ls⟩).2.1).2.1).portOpen =
      (openOk && !(enter_API openOk ⟨sp, false, false, t, ls⟩).1) := by
  cases openOk with
  | false => exact ⟨rfl, rfl⟩
  | true =>
    refine ⟨(exit_API_toggle _).1, ?_⟩
    rw [(exit_API_toggle _).2]
    cases hb : (enter_API true ⟨sp, false, false, t, ls⟩).1 with
    | false =>
      have hb' : (enter_API true (⟨sp, false, false, t, ls⟩ : State)).2.1.in_API = false := hb
      rw [hb']
      rfl
    | true =>
      have hb' : (enter_API true (⟨sp, false, false, t, ls⟩ : State)).2.1.in_API = true := hb
      rw [hb']
      rfl

/-! ### Claim C2 -/

/-- C2: for every public operation other than mode entry and mode exit, if
`in_API` is false the operation performs no transport I/O (its event trace is
empty), leaves the session state unchanged, and returns the fixed sentinel
`"ERR Not in API mode"` together with the failure indicator `False`. -/
theorem c2_mode_guard (sp : String) (pO : Bool) (t : Nat) (ls : List String)
    (msg p mode : String) (n : Int) :
    audio_in ⟨sp, false, pO, t, ls⟩ = (modeErr, ⟨sp, false, pO, t, ls⟩, []) ∧
    calibrate ⟨sp, false, pO, t, ls⟩ = (modeErr, ⟨sp, false, pO, t, ls⟩, []) ∧
    clear_stats ⟨sp, false, pO, t, ls⟩ = (modeErr, ⟨sp, false, pO, t, ls⟩, []) ∧
    custom_splash_1 msg ⟨sp, false, pO, t, ls⟩ = (modeErr, ⟨sp, false, pO, t, ls⟩, []) ∧
    custom_splash_2 msg ⟨sp, false, pO, t, ls⟩ = (modeErr, ⟨sp, false, pO, t, ls⟩, []) ∧
    extended_mode ⟨sp, false, pO, t, ls⟩ = (modeErr, ⟨sp, false, pO, t, ls⟩, []) ∧
    frame_rate ⟨sp, false, pO, t, ls⟩ = (modeErr, ⟨sp, false, pO, t, ls⟩, []) ∧
    mask_len ⟨sp, false, pO, t, ls⟩ = (modeErr, ⟨sp, false, pO, t, ls⟩, []) ∧
    offset ⟨sp, false, pO, t, ls⟩ = (modeErr, ⟨sp, false, pO, t, ls⟩, []) ∧
    reset_settings ⟨sp, false, pO, t, ls⟩ = (modeErr, ⟨sp, false, pO, t, ls⟩, []) ∧
    set_audio_in p ⟨sp, false, pO, t, ls⟩ = (modeErr, ⟨sp, false, pO, t, ls⟩, []) ∧
    set_audio_trigger_level n ⟨sp, false, pO, t, ls⟩ = (modeErr, ⟨sp, false, pO, t, ls⟩, []) ∧
    ser_extended_mode mode ⟨sp, false, pO, t, ls⟩ = (modeErr, ⟨sp, false, pO, t, ls⟩, []) ∧
    set_frame_rate n ⟨sp, false, pO, t, ls⟩ = (modeErr, ⟨sp, false, pO, t, ls⟩, []) ∧
    set_mask_len n ⟨sp, false, pO, t, ls⟩ = (modeErr, ⟨sp, false, pO, t, ls⟩, []) ∧
    set_offset n ⟨sp, false, pO, t, ls⟩ = (modeErr, ⟨sp, false, pO, t, ls⟩, []) ∧
    set_speaker_dist n ⟨sp, false, pO, t, ls⟩ = (modeErr, ⟨sp, false, pO, t, ls⟩, []) ∧
    set_video_trigger_level n ⟨sp, false, pO, t, ls⟩ = (modeErr, ⟨sp, false, pO, t, ls⟩, []) ∧
    settings ⟨sp, false, pO, t, ls⟩ = (modeErr, ⟨sp, false, pO, t, ls⟩, []) ∧
    speaker_dist ⟨sp, false, pO, t, ls⟩ = (modeErr, ⟨sp, false, pO, t, ls⟩, []) ∧
    support_code ⟨sp, false, pO, t, ls⟩ = (modeErr, ⟨sp, false, pO, t, ls⟩, []) ∧
    start ⟨sp, false, pO, t, ls⟩ = (modeErr, ⟨sp, false, pO, t, ls⟩, []) ∧
    start_nocal ⟨sp, false, pO, t, ls⟩ = (modeErr, ⟨sp, false, pO, t, ls⟩, []) ∧
    stats ⟨sp, false, pO, t, ls⟩ = (modeErr, ⟨sp, false, pO, t, ls⟩, []) ∧
    stats_avg ⟨sp, false, pO, t, ls⟩ = (modeErr, ⟨sp, false, pO, t, ls⟩, []) ∧
    stats_count ⟨sp, false, pO, t, ls⟩ = (modeErr, ⟨sp, false, pO, t, ls⟩, []) ∧
    stats_span ⟨sp, false, pO, t, ls⟩ = (modeErr, ⟨sp, false, pO, t, ls⟩, []) ∧
    stats_trim ⟨sp, false, pO, t, ls⟩ = (modeErr, ⟨sp, false, pO, t, ls⟩, []) ∧
    stop ⟨sp, false, pO, t, ls⟩ = (modeErr, ⟨sp, false, pO, t, ls⟩, []) ∧
    get_reading ⟨sp, false, pO, t, ls⟩ = (modeErr, ⟨sp, false, pO, t, ls⟩, []) :=
  ⟨rfl, rfl, rfl, rfl, rfl, rfl, rfl, rfl, rfl, rfl, rfl, rfl, rfl, rfl, rfl,
   rfl, rfl, rfl, rfl, rfl, rfl, rfl, rfl, rfl, rfl, rfl, rfl, rfl, rfl, rfl⟩

/-! ### Claim C3 -/

/-- C3, counterexample: `stop` is a status-only command, yet on the reply
`"ERR 01"` it reports success and returns the text `"OK"` instead of
reporting failure with the reply returned verbatim. -/
theorem c3_status_reply_cex :
    (stop ⟨"COM3", true, true, 1, ["ERR 01"]⟩).1 = .ok (.str "OK", true) := by
  rfl

/-- C3, amended: for the status-only operations invoked in API mode, a reply
equal to `"OK"` yields success in all four; but on a reply containing
`"ERR"`, only `stats_trim` reports failure with that reply returned verbatim;
`reset_settings` and `stop` report success with the text `"OK"` regardless of
the reply; and `clear_stats` keeps scanning for `"OK"`, reporting the text
`"OK"` with a failure flag only once a subsequent read times out empty. -/
theorem c3_status_reply_amended (sp : String) (pO : Bool) (t : Nat)
    (e : String) (rest : List String)
    (hE : pyIn "ERR" e = true) (hO : pyIn "OK" e = false) :
    (clear_stats ⟨sp, true, pO, t, "OK" :: rest⟩).1 = .ok (.str "OK", true) ∧
    (reset_settings ⟨sp, true, pO, t, "OK" :: rest⟩).1 = .ok (.str "OK", true) ∧
    (stop ⟨sp, true, pO, t, "OK" :: rest⟩).1 = .ok (.str "OK", true) ∧
    (stats_trim ⟨sp, true, pO, t, "OK" :: rest⟩).1 = .ok (.str "OK", true) ∧
    (stats_trim ⟨sp, true, pO, t, e :: rest⟩).1 = .ok (.str e, false) ∧
    (reset_settings ⟨sp, true, pO, t, e :: rest⟩).1 = .ok (.str "OK", true) ∧
    (stop ⟨sp, true, pO, t, e :: rest⟩).1 = .ok (.str "OK", true) ∧
    (clear_stats ⟨sp, true, pO, t, e :: "" :: rest⟩).1 = .ok (.str "OK", false) := by
  refine ⟨?_, rfl, rfl, ?_, ?_, rfl, rfl, ?_⟩
  · simp [clear_stats, sendCommand, waitForString, getReply, waitLoop_found "OK" "OK" rest pyIn_OK_OK]
  · simp [stats_trim, commandAndReply, sendCommand, getReply, errCheck]
    decide
  · simp [stats_trim, commandAndReply, sendCommand, getReply, errCheck, hE]
  · simp [clear_stats, sendCommand, waitForString, getReply, waitLoop, hO]

/-- C3, witness for the amended theorem at the concrete reply `"ERR 01"`. -/
theorem c3_status_reply_amended_witness :
    (clear_stats ⟨"COM3", true, true, 1, ["OK"]⟩).1 = .ok (.str "OK", true) ∧
    (reset_settings ⟨"COM3", true, true, 1, ["OK"]⟩).1 = .ok (.str "OK", true) ∧
    (stop ⟨"COM3", true, true, 1, ["OK"]⟩).1 = .ok (.str "OK", true) ∧
    (stats_trim ⟨"COM3", true, true, 1, ["OK"]⟩).1 = .ok (.str "OK", true) ∧
    (stats_trim ⟨"COM3", true, true, 1, ["ERR 01"]⟩).1 = .ok (.str "ERR 01", false) ∧
    (reset_settings ⟨"COM3", true, true, 1, ["ERR 01"]⟩).1 = .ok (.str "OK", true) ∧
    (stop ⟨"COM3", true, true, 1, ["ERR 01"]⟩).1 = .ok (.str "OK", true) ∧
    (clear_stats ⟨"COM3", true, true, 1, ["ERR 01", ""]⟩).1 = .ok (.str "OK", false) :=
  c3_status_reply_amended "COM3" true 1 "ERR 01" [] (by decide) (by decide)

/-! ### Claim C9 -/

/-- C9: `get_reading` in API mode, on a read that times out with no data
(the empty read), returns the absent value `None` with the validity
indicator `False`: no exception is raised and no protocol failure is
reported, and exactly one line is read. -/
theorem c9_get_reading_timeout (sp : String) (pO : Bool) (t : Nat) (ls : List String) :
    (get_reading ⟨sp, true, pO, t, []⟩).1 = .ok (.pnone, false) ∧
    (get_reading ⟨sp, true, pO, t, "" :: ls⟩).1 = .ok (.pnone, false) ∧
    (get_reading ⟨sp, true, pO, t, []⟩).2.2 = [Ev.read ""] ∧
    (get_reading ⟨sp, true, pO, t, "" :: ls⟩).2.2 = [Ev.read ""] :=
  ⟨rfl, rfl, rfl, rfl⟩

/-! ### Claim C5 -/

/-- C5: `calibrate` and plain `start`, invoked in API mode, change the read
timeout exactly twice over the whole call — first to 10 and then back to 1 —
and on every return path (acknowledgment received, error reply, or the wait
timing out, i.e. for every script of incoming lines) the timeout is 1 again
when the operation returns. -/
theorem c5_timeout_scoped (sp : String) (pO : Bool) (t : Nat) (ls : List String) :
    (calibrate ⟨sp, true, pO, t, ls⟩).2.1.timeout = 1 ∧
    ((calibrate ⟨sp, true, pO, t, ls⟩).2.2).filter isSetT = [Ev.setTimeout 10, Ev.setTimeout 1] ∧
    (start ⟨sp, true, pO, t, ls⟩).2.1.timeout = 1 ∧
    ((start ⟨sp, true, pO, t, ls⟩).2.2).filter isSetT = [Ev.setTimeout 10, Ev.setTimeout 1] := by
  refine ⟨rfl, ?_, rfl, ?_⟩
  · simp [calibrate, sendCommand, waitForString, getReply, isSetT, waitLoop_no_setT]
  · simp [start, commandAndReply, sendCommand, waitForString, getReply, isSetT, waitLoop_no_setT]

/-! ### Claim C6 -/

/-- C6, counterexample: during mode entry, when the first read times out
empty and the second line is `"OK"`, entry reports SUCCESS — refuting the
claim that the first empty line encountered ends the scan with failure. -/
theorem c6_scan_first_empty_cex :
    (enter_API true ⟨"COM3", false, false, 1, ["", "OK"]⟩).1 = true := by
  rfl

/-- C6, amended: after the mode-entry command is sent, incoming lines are
scanned; a line containing the acknowledgment token ends the scan with
success, and an empty (timed-out) read ends the scan with failure UNLESS it
is the very first read, in which case the scan continues with the next line
(`scanSpecAux` renders exactly this amended wording). -/
theorem c6_scan_amended (sp : String) (iA pO : Bool) (t : Nat) (ls : List String) :
    (enter_API true ⟨sp, iA, pO, t, ls⟩).1 = scanSpecAux "OK" true ls ∧
    (enter_API true ⟨sp, iA, pO, t, ls⟩).2.1.in_API = scanSpecAux "OK" true ls := by
  have key : (enter_API true ⟨sp, iA, pO, t, ls⟩).1 = scanSpecAux "OK" true ls := by
    cases ls with
    | nil =>
      simp [enter_API, openPort, sendCommand, waitForString, getReply, waitLoop,
        scanSpecAux, pyIn_OK_empty]
    | cons l rest =>
      show (waitLoop "OK" l rest).1 = scanSpecAux "OK" true (l :: rest)
      by_cases hp : pyIn "OK" l = true
      · rw [waitLoop_found "OK" l rest hp]
        unfold scanSpecAux
        rw [hp]
        rfl
      · simp only [Bool.not_eq_true] at hp
        rw [waitLoop_scan rest l hp]
        conv_rhs => rw [scanSpecAux]
        simp [hp]
  exact ⟨key, key⟩

/-! ### Claim C7 -/

/-- C7: `settings` in API mode, on the reply
`"SN123,2.2.4,60,0,1.5,5,AUTO,30,4,4"`, returns success with a 10-field list
in which positions 2,3,5,7,8,9 are the integers 60,0,5,30,4,4, position 4 is
the real number 1.5 (the decimal `15 / 10 ^ 1`), and positions 0,1,6 are the
unchanged texts `"SN123"`, `"2.2.4"`, `"AUTO"`. -/
theorem c7_settings_parse (sp : String) (pO : Bool) (t : Nat) (rest : List String) :
    (settings ⟨sp, true, pO, t, "SN123,2.2.4,60,0,1.5,5,AUTO,30,4,4" :: rest⟩).1 =
      .ok (.list [.str "SN123", .str "2.2.4", .int 60, .int 0, .real ⟨15, 1⟩,
        .int 5, .str "AUTO", .int 30, .int 4, .int 4], true) ∧
    Dec.toRat ⟨15, 1⟩ = 1.5 := by
  refine ⟨rfl, ?_⟩
  norm_num [Dec.toRat]

/-! ### Claim C4 -/

/-- C4, counterexample: in `stats`, a line containing the error marker
`"ERR"` at position 1 of the incoming sequence does NOT abort the table read:
the operation returns success with two parsed rows (the marker line becomes
the second row), refuting the claim that an `"ERR"` line at every position
yields a failure indicator with zero rows. -/
theorem c4_stats_err_position_cex :
    (stats ⟨"COM3", true, true, 1, ["1,2,3,4,5,6,E", "7,8,9,10,11,12,ERR", ""]⟩).1 =
      .ok (.list [
        .list [.real ⟨1, 0⟩, .real ⟨2, 0⟩, .real ⟨3, 0⟩, .real ⟨4, 0⟩, .real ⟨5, 0⟩,
          .real ⟨6, 0⟩, .str "E"],
        .list [.real ⟨7, 0⟩, .real ⟨8, 0⟩, .real ⟨9, 0⟩, .real ⟨10, 0⟩, .real ⟨11, 0⟩,
          .real ⟨12, 0⟩, .str "ERR"]], true) := by
  rfl

/-- C4, amended: only an error-marker in the FIRST reply line aborts the
table read, returning that line with a failure indicator and zero parsed
rows (and consuming exactly that line); an error-marker line at a later
position does not abort — it is read as an ordinary table row, so the
operation returns it inside a success result when its first six fields are
numeric, and raises the row-conversion error otherwise. -/
theorem c4_stats_err_first_line_only (sp : String) (pO : Bool) (t : Nat)
    (em l0 l1 : String) (rest : List String) (r0 r1 : List PyVal) (e : PyErr)
    (hEm : pyIn "ERR" em = true)
    (hN0 : pyIn "ERR" l0 = false) (h0 : l0 ≠ "") (h1 : l1 ≠ "")
    (hE1 : pyIn "ERR" l1 = true)
    (hc0 : convRow6 (pySplit l0 ',') = .ok r0) :
    (stats ⟨sp, true, pO, t, em :: rest⟩).1 = .ok (.str em, false) ∧
    (stats ⟨sp, true, pO, t, em :: rest⟩).2.1.lines = rest ∧
    (convRow6 (pySplit l1 ',') = .ok r1 →
      (stats ⟨sp, true, pO, t, l0 :: l1 :: "" :: rest⟩).1 =
        .ok (.list [.list r0, .list r1], true)) ∧
    (convRow6 (pySplit l1 ',') = .error e →
      (stats ⟨sp, true, pO, t, l0 :: l1 :: "" :: rest⟩).1 = .error e) := by
  refine ⟨?_, ?_, ?_, ?_⟩
  · simp [stats, sendCommand, getReply, hEm]
  · simp [stats, sendCommand, getReply, hEm]
  · intro hc1
    simp [stats, sendCommand, getReply, hN0, statsLoop, statsLoop_empty, h0, h1,
      convRows, hc0, hc1, Bind.bind, Except.bind, Pure.pure, Except.pure]
  · intro hc1
    simp [stats, sendCommand, getReply, hN0, statsLoop, statsLoop_empty, h0, h1,
      convRows, hc0, hc1, Bind.bind, Except.bind, Pure.pure, Except.pure]

/-- C4, witness for the amended theorem at a concrete input. -/
theorem c4_stats_err_first_line_only_witness :
    (stats ⟨"COM3", true, true, 1, ["ERR 20"]⟩).1 = .ok (.str "ERR 20", false) ∧
    (stats ⟨"COM3", true, true, 1, ["ERR 20"]⟩).2.1.lines = [] ∧
    (convRow6 (pySplit "7,8,9,10,11,12,ERR" ',') =
        .ok [.real ⟨7, 0⟩, .real ⟨8, 0⟩, .real ⟨9, 0⟩, .real ⟨10, 0⟩, .real ⟨11, 0⟩,
          .real ⟨12, 0⟩, .str "ERR"] →
      (stats ⟨"COM3", true, true, 1, ["1,2,3,4,5,6,E", "7,8,9,10,11,12,ERR", ""]⟩).1 =
        .ok (.list [
          .list [.real ⟨1, 0⟩, .real ⟨2, 0⟩, .real ⟨3, 0⟩, .real ⟨4, 0⟩, .real ⟨5, 0⟩,
            .real ⟨6, 0⟩, .str "E"],
          .list [.real ⟨7, 0⟩, .real ⟨8, 0⟩, .real ⟨9, 0⟩, .real ⟨10, 0⟩, .real ⟨11, 0⟩,
            .real ⟨12, 0⟩, .str "ERR"]], true)) ∧
    (convRow6 (pySplit "7,8,9,10,11,12,ERR" ',') = .error .valueError →
      (stats ⟨"COM3", true, true, 1, ["1,2,3,4,5,6,E", "7,8,9,10,11,12,ERR", ""]⟩).1 =
        .error .valueError) :=
  c4_stats_err_first_line_only "COM3" true 1 "ERR 20" "1,2,3,4,5,6,E" "7,8,9,10,11,12,ERR"
    [] _ _ .valueError (by decide) (by decide) (by decide) (by decide) (by decide) rfl

/-! ### Claim C8 -/

/-- C8: `stats` in API mode, on two non-empty comma-delimited lines (the
first free of the error marker, both with their first six fields numeric)
followed by an empty line, returns success with exactly those two parsed
rows, consuming exactly the three lines; in each row the first six fields
are floats and the remaining fields are the unchanged texts. -/
theorem c8_stats_table_rows (sp : String) (pO : Bool) (t : Nat)
    (l0 l1 : String) (rest : List String) (r0 r1 : List PyVal)
    (h0 : l0 ≠ "") (h1 : l1 ≠ "") (hE : pyIn "ERR" l0 = false)
    (hc0 : convRow6 (pySplit l0 ',') = .ok r0)
    (hc1 : convRow6 (pySplit l1 ',') = .ok r1) :
    (stats ⟨sp, true, pO, t, l0 :: l1 :: "" :: rest⟩).1 =
      .ok (.list [.list r0, .list r1], true) ∧
    (stats ⟨sp, true, pO, t, l0 :: l1 :: "" :: rest⟩).2.1.lines = rest ∧
    (r0.take 6).all isRealV = true ∧
    r0.drop 6 = ((pySplit l0 ',').drop 6).map PyVal.str ∧
    (r1.take 6).all isRealV = true ∧
    r1.drop 6 = ((pySplit l1 ',').drop 6).map PyVal.str := by
  have k0 := convRowAux_ok 6 _ _ hc0
  have k1 := convRowAux_ok 6 _ _ hc1
  refine ⟨?_, ?_, k0.1, k0.2, k1.1, k1.2⟩
  · simp [stats, sendCommand, getReply, hE, statsLoop, statsLoop_empty, h0, h1,
      convRows, hc0, hc1, Bind.bind, Except.bind, Pure.pure, Except.pure]
  · simp [stats, sendCommand, getReply, hE, statsLoop, statsLoop_empty, h0, h1,
      convRows, hc0, hc1, Bind.bind, Except.bind, Pure.pure, Except.pure]

/-- C8, witness at a concrete two-row table. -/
theorem c8_stats_table_rows_witness :
    (stats ⟨"COM3", true, true, 1, ["1,2,3,4,5,6,E", "2,3,4,5,6,7,S,O", ""]⟩).1 =
      .ok (.list [
        .list [.real ⟨1, 0⟩, .real ⟨2, 0⟩, .real ⟨3, 0⟩, .real ⟨4, 0⟩, .real ⟨5, 0⟩,
          .real ⟨6, 0⟩, .str "E"],
        .list [.real ⟨2, 0⟩, .real ⟨3, 0⟩, .real ⟨4, 0⟩, .real ⟨5, 0⟩, .real ⟨6, 0⟩,
          .real ⟨7, 0⟩, .str "S", .str "O"]], true) ∧
    (stats ⟨"COM3", true, true, 1, ["1,2,3,4,5,6,E", "2,3,4,5,6,7,S,O", ""]⟩).2.1.lines = [] ∧
    (([(PyVal.real ⟨1, 0⟩), .real ⟨2, 0⟩, .real ⟨3, 0⟩, .real ⟨4, 0⟩, .real ⟨5, 0⟩,
        .real ⟨6, 0⟩, .str "E"].take 6).all isRealV = true) ∧
    [(PyVal.real ⟨1, 0⟩), .real ⟨2, 0⟩, .real ⟨3, 0⟩, .real ⟨4, 0⟩, .real ⟨5, 0⟩,
        .real ⟨6, 0⟩, .str "E"].drop 6 =
      ((pySplit "1,2,3,4,5,6,E" ',').drop 6).map PyVal.str ∧
    (([(PyVal.real ⟨2, 0⟩), .real ⟨3, 0⟩, .real ⟨4, 0⟩, .real ⟨5, 0⟩, .real ⟨6, 0⟩,
        .real ⟨7, 0⟩, .str "S", .str "O"].take 6).all isRealV = true) ∧
    [(PyVal.real ⟨2, 0⟩), .real ⟨3, 0⟩, .real ⟨4, 0⟩, .real ⟨5, 0⟩, .real ⟨6, 0⟩,
        .real ⟨7, 0⟩, .str "S", .str "O"].drop 6 =
      ((pySplit "2,3,4,5,6,7,S,O" ',').drop 6).map PyVal.str :=
  c8_stats_table_rows "COM3" true 1 "1,2,3,4,5,6,E" "2,3,4,5,6,7,S,O" [] _ _
    (by decide) (by decide) (by decide) rfl rfl

/-! ### Claim C10 -/

/-- C10: for every scalar-typed or tuple-typed query invoked in API mode, a
reply whose required numeric field is not a well-formed number raises the
distinct parse-failure condition (`ValueError`), and is never silently
coerced into a returned value: `frame_rate`, `mask_len`, `stats_count` on a
non-integer reply `s`, `offset` on a non-float reply `s`, `settings` on a
10-field reply with any of its numeric positions 2,3,4,5,7,8,9 malformed,
and `speaker_dist` on a 3-field reply with any of its positions malformed. -/
theorem c10_malformed_numeric_raises (sp : String) (pO : Bool) (t : Nat)
    (s u v : String) (rest : List String)
    (u0 u1 u2 u3 u4 u5 u6 u7 u8 u9 : String) (utl : List String)
    (v0 v1 v2 : String) (vtl : List String)
    (hI : pyInt? s = none) (hF : pyFloat? s = none)
    (hu : pySplit u ',' = [u0, u1, u2, u3, u4, u5, u6, u7, u8, u9] ++ utl)
    (hubad : pyInt? u2 = none ∨ pyInt? u3 = none ∨ pyFloat? u4 = none ∨
      pyInt? u5 = none ∨ pyInt? u7 = none ∨ pyInt? u8 = none ∨ pyInt? u9 = none)
    (hv : pySplit v ',' = [v0, v1, v2] ++ vtl)
    (hvbad : pyFloat? v0 = none ∨ pyInt? v1 = none ∨ pyInt? v2 = none) :
    (frame_rate ⟨sp, true, pO, t, s :: rest⟩).1 = .error .valueError ∧
    (mask_len ⟨sp, true, pO, t, s :: rest⟩).1 = .error .valueError ∧
    (stats_count ⟨sp, true, pO, t, s :: rest⟩).1 = .error .valueError ∧
    (offset ⟨sp, true, pO, t, s :: rest⟩).1 = .error .valueError ∧
    (settings ⟨sp, true, pO, t, u :: rest⟩).1 = .error .valueError ∧
    (speaker_dist ⟨sp, true, pO, t, v :: rest⟩).1 = .error .valueError := by
  refine ⟨?_, ?_, ?_, ?_, ?_, ?_⟩
  · simp [frame_rate, commandAndReply, sendCommand, getReply, hI]
  · simp [mask_len, commandAndReply, sendCommand, getReply, hI]
  · simp [stats_count, commandAndReply, sendCommand, getReply, hI]
  · simp [offset, commandAndReply, sendCommand, getReply, hF]
  · rcases h2 : pyInt? u2 with _ | n2
    · simp [settings, commandAndReply, sendCommand, getReply, hu, convIntAt, convFloatAt,
        h2, Bind.bind, Except.bind]
    rcases h3 : pyInt? u3 with _ | n3
    · simp [settings, commandAndReply, sendCommand, getReply, hu, convIntAt, convFloatAt,
        h2, h3, Bind.bind, Except.bind]
    rcases h4 : pyFloat? u4 with _ | d4
    · simp [settings, commandAndReply, sendCommand, getReply, hu, convIntAt, convFloatAt,
        h2, h3, h4, Bind.bind, Except.bind]
    rcases h5 : pyInt? u5 with _ | n5
    · simp [settings, commandAndReply, sendCommand, getReply, hu, convIntAt, convFloatAt,
        h2, h3, h4, h5, Bind.bind, Except.bind]
    rcases h7 : pyInt? u7 with _ | n7
    · simp [settings, commandAndReply, sendCommand, getReply, hu, convIntAt, convFloatAt,
        h2, h3, h4, h5, h7, Bind.bind, Except.bind]
    rcases h8 : pyInt? u8 with _ | n8
    · simp [settings, commandAndReply, sendCommand, getReply, hu, convIntAt, convFloatAt,
        h2, h3, h4, h5, h7, h8, Bind.bind, Except.bind]
    rcases h9 : pyInt? u9 with _ | n9
    · simp [settings, commandAndReply, sendCommand, getReply, hu, convIntAt, convFloatAt,
        h2, h3, h4, h5, h7, h8, h9, Bind.bind, Except.bind]
    simp [h2, h3, h4, h5, h7, h8, h9] at hubad
  · rcases g0 : pyFloat? v0 with _ | e0
    · simp [speaker_dist, commandAndReply, sendCommand, getReply, hv, convIntAt,
        convFloatAt, g0, Bind.bind, Except.bind]
    rcases g1 : pyInt? v1 with _ | e1
    · simp [speaker_dist, commandAndReply, sendCommand, getReply, hv, convIntAt,
        convFloatAt, g0, g1, Bind.bind, Except.bind]
    rcases g2 : pyInt? v2 with _ | e2
    · simp [speaker_dist, commandAndReply, sendCommand, getReply, hv, convIntAt,
        convFloatAt, g0, g1, g2, Bind.bind, Except.bind]
    simp [g0, g1, g2] at hvbad

/-- C10, witness at concrete malformed replies. -/
theorem c10_malformed_numeric_raises_witness :
    (frame_rate ⟨"COM3", true, true, 1, ["59.94x"]⟩).1 = .error .valueError ∧
    (mask_len ⟨"COM3", true, true, 1, ["59.94x"]⟩).1 = .error .valueError ∧
    (stats_count ⟨"COM3", true, true, 1, ["59.94x"]⟩).1 = .error .valueError ∧
    (offset ⟨"COM3", true, true, 1, ["59.94x"]⟩).1 = .error .valueError ∧
    (settings ⟨"COM3", true, true, 1, ["SN123,2.2.4,abc,0,1.5,5,AUTO,30,4,4"]⟩).1 =
      .error .valueError ∧
    (speaker_dist ⟨"COM3", true, true, 1, ["abc,2,3"]⟩).1 = .error .valueError :=
  c10_malformed_numeric_raises "COM3" true 1 "59.94x"
    "SN123,2.2.4,abc,0,1.5,5,AUTO,30,4,4" "abc,2,3" []
    "SN123" "2.2.4" "abc" "0" "1.5" "5" "AUTO" "30" "4" "4" []
    "abc" "2" "3" []
    (by decide) (by decide) (by decide) (.inl (by decide)) (by decide) (.inl (by decide))

end SyncOne2
